import Mathlib

/-!
Verification development for the EU petition tracker's live-data monitoring
core: the subscriber manager, the poll-tick change detector and persister
(`src/lib/datamonitor.ts`), the poll scheduler, and the stats endpoint's
sliding-window rate and current-signature resolution
(`src/routes/api/stats/+server.ts`).

JavaScript peculiarities that matter to the claims are modelled explicitly:
`lastSignatureCount : number | null` can also become `undefined` when a
malformed payload is recorded, so it is embedded as `JVal`; strict equality
`===` and truthiness are embedded as `jsStrictEq` and `truthy`.
-/

namespace Petition

/-- The configured goal override constant (`GOAL_OVERRIDE` in `config.js`). -/
def GOAL_OVERRIDE : ℤ := 1500000

/-- A JavaScript value as stored in `lastSignatureCount`: initially `null`,
later assigned from `data.signatureCount`, which is a number for well-formed
payloads and `undefined` for payloads missing the field. -/
inductive JVal where
  | null
  | undefined
  | num (n : ℤ)
deriving DecidableEq, Repr

/-- A parsed upstream JSON payload.  `none` in a field models the field being
absent (`undefined`) in the JSON object. -/
structure RawData where
  signatureCount : Option ℤ
  goal : Option ℤ
deriving DecidableEq, Repr

/-- A snapshot as held in `cachedData` after `applyGoalOverride`: the goal is
always the override constant; the signature count is whatever the payload
carried (possibly absent). -/
structure Snapshot where
  signatureCount : Option ℤ
  goal : ℤ
deriving DecidableEq, Repr

/-- `applyGoalOverride` from `config.js` on a single payload object:
`{ ...data, goal: GOAL_OVERRIDE }`. -/
def applyGoalOverride (raw : RawData) : Snapshot :=
  { signatureCount := raw.signatureCount, goal := GOAL_OVERRIDE }

/-- The JS value `data.signatureCount` evaluates to. -/
def toJVal : Option ℤ → JVal
  | some n => .num n
  | none => .undefined

/-- JS strict equality `data.signatureCount === lastSignatureCount`:
true iff both sides are the same number, or both are `undefined`
(`undefined === null` is false). -/
def jsStrictEq (a : Option ℤ) (l : JVal) : Bool :=
  match a, l with
  | some n, .num m => n == m
  | none, .undefined => true
  | _, _ => false

/-- JS truthiness of `lastSignatureCount`: `null`, `undefined` and `0` are
falsy; any other number is truthy. -/
def truthy : JVal → Bool
  | .num n => n != 0
  | _ => false

/-- The row handed to the storage insert in `saveToSupabase`
(`signature_count`, `goal`, `change_amount`); `none` fields model
`undefined` values flowing into the insert. -/
structure InsertRow where
  signature_count : Option ℤ
  goal : ℤ
  change_amount : Option ℤ
deriving DecidableEq, Repr

/-! ## Subscriber manager (`SubscriberManager` in `datamonitor.ts`)

Subscribers are identified by handles (here `ℕ`); the JS `Set` keeps
insertion order and no duplicates, embedded as a duplicate-free `List ℕ`.
Whether a given callback throws on a given snapshot is a parameter
`throws : ℕ → Snapshot → Bool`. -/

/-- The `for (const callback of this.subscribers)` loop of `notify`: each
member is invoked (recorded in the second component); a member whose callback
throws is deleted from the set (dropped from the first component), the rest
are kept.  Returns (surviving subscriber list, invoked list). -/
def notifyLoop (throws : ℕ → Snapshot → Bool) (snap : Snapshot) :
    List ℕ → List ℕ × List ℕ
  | [] => ([], [])
  | c :: rest =>
    let r := notifyLoop throws snap rest
    if throws c snap then (r.1, c :: r.2) else (c :: r.1, c :: r.2)

/-- `SubscriberManager.notify(data)`: early return when there are no
subscribers, else run the delivery loop. -/
def notify (throws : ℕ → Snapshot → Bool) (subs : List ℕ) (snap : Snapshot) :
    List ℕ × List ℕ :=
  if subs.isEmpty then (subs, []) else notifyLoop throws snap subs

/-- `SubscriberManager.subscribe(callback)`: `Set.add` keeps an existing
member in place and appends a new one. -/
def subscribeOp (i : ℕ) (subs : List ℕ) : List ℕ :=
  if i ∈ subs then subs else subs ++ [i]

/-- The unsubscribe closure returned by `subscribe`:
`this.subscribers.delete(callback)` (a no-op when absent). -/
def unsubscribeOp (i : ℕ) (subs : List ℕ) : List ℕ :=
  subs.erase i

/-- A sequence of `notify` calls: returns the final subscriber list and the
per-call invocation lists. -/
def notifySeq (throws : ℕ → Snapshot → Bool) (subs : List ℕ) :
    List Snapshot → List ℕ × List (List ℕ)
  | [] => (subs, [])
  | snap :: rest =>
    let nr := notify throws subs snap
    let r := notifySeq throws nr.1 rest
    (r.1, nr.2 :: r.2)

/-! ## Change detector and persister (`checkForChanges` in `datamonitor.ts`) -/

/-- `const changeAmount = lastSignatureCount ? data.signatureCount -
lastSignatureCount : 0;` — truthiness, not a null check, guards the
subtraction; a missing `signatureCount` minus a number is `NaN` (`none`). -/
def changeAmount (last : JVal) (sc : Option ℤ) : Option ℤ :=
  if truthy last then
    match last, sc with
    | .num m, some n => some (n - m)
    | _, _ => none
  else some 0

/-- The monitor's module-level mutable state: `cachedData`,
`lastSignatureCount` and the subscriber set. -/
structure MState where
  cachedData : Option Snapshot
  last : JVal
  subs : List ℕ
deriving DecidableEq, Repr

/-- State at module load: `cachedData = null`, `lastSignatureCount = null`,
no subscribers. -/
def initialState : MState :=
  { cachedData := none, last := .null, subs := [] }

/-- What one `checkForChanges` tick produced: the new module state, the rows
handed to the storage insert, and the subscribers invoked by `notify`. -/
structure TickResult where
  state : MState
  inserted : List InsertRow
  notified : List ℕ
deriving DecidableEq, Repr

/-- One `checkForChanges` tick.  `fetch` is the outcome of
`fetch(EU_API)` + `response.json()` (an exception puts us in the catch
block); `persistEnabled` is `hasValidSupabase`; `throws` gives each
subscriber callback's behaviour.  On a detected change the tick saves a row
(best-effort), updates `lastSignatureCount` and `cachedData`, then notifies. -/
def checkForChanges (persistEnabled : Bool) (throws : ℕ → Snapshot → Bool)
    (fetch : Except Unit RawData) (s : MState) : TickResult :=
  match fetch with
  | .error _ => { state := s, inserted := [], notified := [] }
  | .ok raw =>
    let data := applyGoalOverride raw
    if jsStrictEq data.signatureCount s.last then
      { state := s, inserted := [], notified := [] }
    else
      let change := changeAmount s.last data.signatureCount
      let rows := if persistEnabled then
        [{ signature_count := data.signatureCount, goal := data.goal,
           change_amount := change : InsertRow }] else []
      let nr := notify throws s.subs data
      { state := { cachedData := some data,
                   last := toJVal data.signatureCount,
                   subs := nr.1 },
        inserted := rows,
        notified := nr.2 }

/-- An event touching the monitor's state: a poll tick, a stream connect
(`subscribe`) or a disconnect (`unsubscribe`). -/
inductive MonitorOp where
  | tick (fetch : Except Unit RawData)
  | sub (i : ℕ)
  | unsub (i : ℕ)

/-- Apply one event to the monitor state. -/
def stepOp (persistEnabled : Bool) (throws : ℕ → Snapshot → Bool)
    (s : MState) : MonitorOp → MState
  | .tick fetch => (checkForChanges persistEnabled throws fetch s).state
  | .sub i => { s with subs := subscribeOp i s.subs }
  | .unsub i => { s with subs := unsubscribeOp i s.subs }

/-- Run a sequence of events from the initial module state. -/
def runM (persistEnabled : Bool) (throws : ℕ → Snapshot → Bool)
    (ops : List MonitorOp) : MState :=
  ops.foldl (stepOp persistEnabled throws) initialState

/-- One step of tracking the most recent successfully fetched payload. -/
def updFetch (m : Option RawData) : MonitorOp → Option RawData
  | .tick (.ok raw) => some raw
  | _ => m

/-- The payload of the last successful fetch in an event sequence, if any. -/
def lastFetch (ops : List MonitorOp) : Option RawData :=
  ops.foldl updFetch none

/-! ## Poll scheduler (`startMonitoring` / `stopMonitoring`) -/

/-- A call to the scheduler's public API. -/
inductive SchedOp where
  | start
  | stop
deriving DecidableEq, Repr

/-- Observable scheduler state: `running` is the truthiness of
`monitorInterval`; `timers` counts live interval timers created by
`setInterval` and not yet cleared; `polls` counts the immediate
`checkForChanges()` calls made by `startMonitoring`. -/
structure SchedState where
  running : Bool
  timers : ℕ
  polls : ℕ
deriving DecidableEq, Repr

/-- `startMonitoring`: `if (monitorInterval) return;` then one immediate poll
and `setInterval`. -/
def startMonitoring (s : SchedState) : SchedState :=
  if s.running then s
  else { running := true, timers := s.timers + 1, polls := s.polls + 1 }

/-- `stopMonitoring`: `clearInterval` and reset the handle when running, else
a no-op. -/
def stopMonitoring (s : SchedState) : SchedState :=
  if s.running then { running := false, timers := s.timers - 1, polls := s.polls }
  else s

/-- Run a sequence of start/stop calls from process start (no monitor). -/
def runSched (ops : List SchedOp) : SchedState :=
  ops.foldl (fun s op =>
    match op with
    | .start => startMonitoring s
    | .stop => stopMonitoring s) { running := false, timers := 0, polls := 0 }

/-! ## Stats endpoint (`src/routes/api/stats/+server.ts`) -/

/-- A persisted history row as read back from storage, ordered by
`timestamp` (epoch milliseconds). -/
structure HistoryRow where
  timestamp : ℤ
  signature_count : ℤ
  goal : ℤ
  change_amount : ℤ
deriving DecidableEq, Repr

/-- Goal override as the history and stats endpoints apply it per row:
`{ ...item, goal: applyGoalOverride({goal: item.goal}).goal }`. -/
def overrideRow (r : HistoryRow) : HistoryRow :=
  { r with goal := GOAL_OVERRIDE }

/-- `calculateSlidingWindowRate(data, timeWindowMs)` with `Date.now()`
passed explicitly as `now`.  Filters rows with `entryTime > windowStart`,
sums `Math.max(0, change_amount)`, and divides by the covered span in
seconds (`Math.min(timeWindowMs, now - windowData[0].timestamp) / 1000`),
returning 0 when the input or the filtered window is empty or the positive
sum is 0. -/
def calculateSlidingWindowRate (data : List HistoryRow) (timeWindowMs now : ℤ) : ℚ :=
  if data.isEmpty then 0
  else
    let windowStart := now - timeWindowMs
    match data.filter (fun r => decide (windowStart < r.timestamp)) with
    | [] => 0
    | w :: ws =>
      let totalChanges : ℤ := ((w :: ws).map (fun r => max 0 r.change_amount)).sum
      let actualWindowMs := min timeWindowMs (now - w.timestamp)
      if 0 < totalChanges then (totalChanges : ℚ) / ((actualWindowMs : ℚ) / 1000)
      else 0

/-- Modelled from the claim's words (C6, spec §4.5): qualifying rows are
those with timestamp in the closed interval from `now - windowMs` to `now`;
the numerator sums `max 0 change_amount` over them; the denominator is the
lesser of `windowMs` and `now` minus the earliest qualifying timestamp, in
seconds; the result is 0 when no rows qualify. -/
def specWindowRate (data : List HistoryRow) (windowMs now : ℤ) : ℚ :=
  match data.filter
      (fun r => decide (now - windowMs ≤ r.timestamp ∧ r.timestamp ≤ now)) with
  | [] => 0
  | w :: ws =>
    let numer : ℤ := ((w :: ws).map (fun r => max 0 r.change_amount)).sum
    let earliest : ℤ := ws.foldl (fun m r => min m r.timestamp) w.timestamp
    (numer : ℚ) / (((min windowMs (now - earliest) : ℤ) : ℚ) / 1000)

/-- The amended window-rate formula: the lower bound is strict (a row at
exactly `now - windowMs` is excluded), matching the code's
`entryTime > windowStart` filter; otherwise as `specWindowRate`. -/
def specWindowRateStrict (data : List HistoryRow) (windowMs now : ℤ) : ℚ :=
  match data.filter
      (fun r => decide (now - windowMs < r.timestamp ∧ r.timestamp ≤ now)) with
  | [] => 0
  | w :: ws =>
    let numer : ℤ := ((w :: ws).map (fun r => max 0 r.change_amount)).sum
    let earliest : ℤ := ws.foldl (fun m r => min m r.timestamp) w.timestamp
    (numer : ℚ) / (((min windowMs (now - earliest) : ℤ) : ℚ) / 1000)

/-- The stats endpoint's `currentSignatures` resolution:
`currentLiveData?.signatureCount && currentLiveData.signatureCount >=
latestDbEntry.signature_count ? currentLiveData.signatureCount :
latestDbEntry.signature_count`. -/
def resolveCurrentSignatures (live : Option Snapshot) (dbCount : ℤ) : ℤ :=
  match live with
  | none => dbCount
  | some d =>
    match d.signatureCount with
    | none => dbCount
    | some c => if c ≠ 0 ∧ dbCount ≤ c then c else dbCount

/-- `currentSignatures` over the fetched row list: the non-fallback branch
uses the last row (`data[data.length - 1]`); the empty-rows fallback branch
uses `currentLiveData?.signatureCount || 0`. -/
def statsCurrentSignatures (live : Option Snapshot) (rows : List HistoryRow) : ℤ :=
  match rows.getLast? with
  | some r => resolveCurrentSignatures live r.signature_count
  | none =>
    match live with
    | some d =>
      match d.signatureCount with
      | some c => if c ≠ 0 then c else 0
      | none => 0
    | none => 0

/-- The `goal` field of the stats response: the non-fallback branch is
`currentLiveData?.goal || latestDbEntry.goal` over goal-overridden rows; the
empty-rows fallback is `currentLiveData?.goal || 1500000`. -/
def statsResponseGoal (live : Option Snapshot) (rawRows : List HistoryRow) : ℤ :=
  match (rawRows.map overrideRow).getLast? with
  | some lastEntry =>
    match live with
    | some d => if d.goal ≠ 0 then d.goal else lastEntry.goal
    | none => lastEntry.goal
  | none =>
    match live with
    | some d => if d.goal ≠ 0 then d.goal else GOAL_OVERRIDE
    | none => GOAL_OVERRIDE

/-! ## Helper lemmas about the subscriber manager -/

theorem notifyLoop_eq (throws : ℕ → Snapshot → Bool) (snap : Snapshot)
    (l : List ℕ) :
    notifyLoop throws snap l = (l.filter (fun c => !throws c snap), l) := by
  induction l with
  | nil => rfl
  | cons c rest ih =>
    simp only [notifyLoop, ih, List.filter_cons]
    cases h : throws c snap <;> simp [h]

theorem notify_eq (throws : ℕ → Snapshot → Bool) (subs : List ℕ)
    (snap : Snapshot) :
    notify throws subs snap = (subs.filter (fun c => !throws c snap), subs) := by
  cases subs with
  | nil => rfl
  | cons a l => simp [notify, notifyLoop_eq]

theorem notifySeq_not_mem (throws : ℕ → Snapshot → Bool) (i : ℕ) :
    ∀ (snaps : List Snapshot) (subs : List ℕ), i ∉ subs →
      ∀ l ∈ (notifySeq throws subs snaps).2, i ∉ l := by
  intro snaps
  induction snaps with
  | nil => intro subs hi l hl; simp [notifySeq] at hl
  | cons snap rest ih =>
    intro subs hi l hl
    simp only [notifySeq, notify_eq, List.mem_cons] at hl
    rcases hl with h1 | h2
    · exact h1 ▸ hi
    · exact ih (subs.filter (fun c => !throws c snap))
        (fun hmem => hi (List.mem_of_mem_filter hmem)) l h2

theorem notifySeq_mem (throws : ℕ → Snapshot → Bool) (j : ℕ)
    (hok : ∀ s, throws j s = false) :
    ∀ (snaps : List Snapshot) (subs : List ℕ), j ∈ subs →
      ∀ l ∈ (notifySeq throws subs snaps).2, j ∈ l := by
  intro snaps
  induction snaps with
  | nil => intro subs hj l hl; simp [notifySeq] at hl
  | cons snap rest ih =>
    intro subs hj l hl
    simp only [notifySeq, notify_eq, List.mem_cons] at hl
    rcases hl with h1 | h2
    · exact h1 ▸ hj
    · exact ih (subs.filter (fun c => !throws c snap))
        (List.mem_filter.mpr ⟨hj, by simp [hok]⟩) l h2

/-! ## Helper lemmas about the change detector's state -/

/-- The relation the state invariant asserts between the monitor state and
the most recent successfully fetched payload. -/
def Agrees (s : MState) (m : Option RawData) : Prop :=
  match m with
  | none => s.cachedData = none ∧ s.last = .null
  | some raw => s.cachedData = some (applyGoalOverride raw)
      ∧ s.last = toJVal raw.signatureCount

theorem jsStrictEq_toJVal (a b : Option ℤ) :
    jsStrictEq a (toJVal b) = true ↔ a = b := by
  cases a <;> cases b <;> simp [jsStrictEq, toJVal]

theorem jsStrictEq_null (a : Option ℤ) : jsStrictEq a .null = false := by
  cases a <;> rfl

theorem step_agrees (p : Bool) (throws : ℕ → Snapshot → Bool)
    (s : MState) (m : Option RawData) (op : MonitorOp)
    (h : Agrees s m) : Agrees (stepOp p throws s op) (updFetch m op) := by
  cases op with
  | sub i => cases m <;> simpa [stepOp, updFetch, Agrees] using h
  | unsub i => cases m <;> simpa [stepOp, updFetch, Agrees] using h
  | tick f =>
    cases f with
    | error e => cases m <;> simpa [stepOp, updFetch, checkForChanges, Agrees] using h
    | ok raw =>
      simp only [stepOp, updFetch, checkForChanges]
      by_cases hc : jsStrictEq (applyGoalOverride raw).signatureCount s.last = true
      · rw [if_pos hc]
        cases m with
        | none =>
          exfalso
          rw [h.2] at hc
          simp [jsStrictEq_null] at hc
        | some raw0 =>
          rw [h.2] at hc
          have hsc : (applyGoalOverride raw).signatureCount = raw0.signatureCount :=
            (jsStrictEq_toJVal _ _).mp hc
          have hov : applyGoalOverride raw = applyGoalOverride raw0 := by
            simp only [applyGoalOverride] at hsc ⊢
            rw [hsc]
          exact ⟨h.1.trans (by rw [hov]), h.2.trans (by
            simp only [applyGoalOverride] at hsc
            rw [hsc])⟩
      · rw [if_neg hc]
        exact ⟨rfl, rfl⟩

theorem foldl_agrees (p : Bool) (throws : ℕ → Snapshot → Bool) :
    ∀ (ops : List MonitorOp) (s : MState) (m : Option RawData), Agrees s m →
      Agrees (ops.foldl (stepOp p throws) s) (ops.foldl updFetch m) := by
  intro ops
  induction ops with
  | nil => intro s m h; exact h
  | cons op rest ih =>
    intro s m h
    exact ih (stepOp p throws s op) (updFetch m op) (step_agrees p throws s m op h)

/-! ## Claim theorems -/

/-- Claim C1: in every `notify` call, a registered subscriber whose callback
throws on that snapshot is removed from the subscriber set during the call
and is never invoked by any later `notify`, while every registered
subscriber whose callback does not throw is invoked in that call and in all
subsequent calls. -/
theorem failing_subscriber_removed_and_isolated
    (throws : ℕ → Snapshot → Bool) (subs : List ℕ) (snap : Snapshot)
    (snaps : List Snapshot) (i j : ℕ)
    (hi : i ∈ subs) (hthrows : throws i snap = true)
    (hj : j ∈ subs) (hok : ∀ s, throws j s = false) :
    i ∉ (notify throws subs snap).1
    ∧ (∀ l ∈ (notifySeq throws (notify throws subs snap).1 snaps).2, i ∉ l)
    ∧ i ∈ (notify throws subs snap).2
    ∧ j ∈ (notify throws subs snap).2
    ∧ j ∈ (notify throws subs snap).1
    ∧ ∀ l ∈ (notifySeq throws (notify throws subs snap).1 snaps).2, j ∈ l := by
  have hnoti : i ∉ (notify throws subs snap).1 := by
    simp [notify_eq, List.mem_filter, hthrows]
  refine ⟨hnoti, notifySeq_not_mem throws i snaps _ hnoti, ?_, ?_, ?_, ?_⟩
  · simpa [notify_eq] using hi
  · simpa [notify_eq] using hj
  · simp [notify_eq, List.mem_filter, hj, hok]
  · exact notifySeq_mem throws j hok snaps _
      (by simp [notify_eq, List.mem_filter, hj, hok])

theorem failing_subscriber_removed_and_isolated_witness :
    1 ∉ (notify (fun i _ => i == 1) [0, 1, 2] ⟨some 5, 1500000⟩).1
    ∧ (∀ l ∈ (notifySeq (fun i _ => i == 1)
        (notify (fun i _ => i == 1) [0, 1, 2] ⟨some 5, 1500000⟩).1
        [⟨some 6, 1500000⟩]).2, 1 ∉ l)
    ∧ 1 ∈ (notify (fun i _ => i == 1) [0, 1, 2] ⟨some 5, 1500000⟩).2
    ∧ 0 ∈ (notify (fun i _ => i == 1) [0, 1, 2] ⟨some 5, 1500000⟩).2
    ∧ 0 ∈ (notify (fun i _ => i == 1) [0, 1, 2] ⟨some 5, 1500000⟩).1
    ∧ ∀ l ∈ (notifySeq (fun i _ => i == 1)
        (notify (fun i _ => i == 1) [0, 1, 2] ⟨some 5, 1500000⟩).1
        [⟨some 6, 1500000⟩]).2, 0 ∈ l :=
  failing_subscriber_removed_and_isolated (fun i _ => i == 1) [0, 1, 2]
    ⟨some 5, 1500000⟩ [⟨some 6, 1500000⟩] 1 0
    (by decide) (by decide) (by decide) (fun _ => rfl)

/-- Claim C2 is a code bug at the input where the previously recorded count
is 0: a tick that then fetches count 5 persists a row with
`change_amount = 0` instead of the claimed `5 - 0 = 5`, because
`lastSignatureCount ? current - last : 0` treats the previous value 0 as
absent (JS falsiness). -/
theorem change_amount_zero_baseline_eval :
    (checkForChanges true (fun _ _ => false) (.ok ⟨some 5, some 1000000⟩)
      ⟨some ⟨some 0, GOAL_OVERRIDE⟩, .num 0, []⟩).inserted
      = [⟨some 5, GOAL_OVERRIDE, some 0⟩]
    ∧ (checkForChanges true (fun _ _ => false) (.ok ⟨some 5, some 1000000⟩)
      ⟨some ⟨some 0, GOAL_OVERRIDE⟩, .num 0, []⟩).inserted
      ≠ [⟨some 5, GOAL_OVERRIDE, some (5 - 0)⟩] := by decide

/-- Claim C3: a tick whose fetched `signatureCount` equals the recorded
`lastSignatureCount` (which exists) is a no-op: no row is inserted, nobody
is notified, and the whole module state is unchanged. -/
theorem unchanged_count_tick_is_noop (persistEnabled : Bool)
    (throws : ℕ → Snapshot → Bool) (raw : RawData) (s : MState) (a : ℤ)
    (hlast : s.last = .num a) (hsc : raw.signatureCount = some a) :
    checkForChanges persistEnabled throws (.ok raw) s
      = { state := s, inserted := [], notified := [] } := by
  simp [checkForChanges, applyGoalOverride, hlast, hsc, jsStrictEq]

theorem unchanged_count_tick_is_noop_witness :
    checkForChanges true (fun _ _ => false) (.ok ⟨some 4, some 1000000⟩)
      ⟨some ⟨some 4, GOAL_OVERRIDE⟩, .num 4, [0]⟩
      = { state := ⟨some ⟨some 4, GOAL_OVERRIDE⟩, .num 4, [0]⟩,
          inserted := [], notified := [] } :=
  unchanged_count_tick_is_noop true (fun _ _ => false) ⟨some 4, some 1000000⟩
    ⟨some ⟨some 4, GOAL_OVERRIDE⟩, .num 4, [0]⟩ 4 rfl rfl

/-- Claim C4: after every event sequence from the initial state (poll ticks,
successful or failed, interleaved with connects and disconnects),
`cachedData` is the goal-overridden version of the last successfully fetched
payload and `lastSignatureCount` mirrors its `signatureCount`; before any
successful fetch both are unset. -/
theorem cached_state_invariant (p : Bool) (throws : ℕ → Snapshot → Bool)
    (ops : List MonitorOp) :
    match lastFetch ops with
    | none => (runM p throws ops).cachedData = none
        ∧ (runM p throws ops).last = .null
    | some raw => (runM p throws ops).cachedData = some (applyGoalOverride raw)
        ∧ (runM p throws ops).last = toJVal raw.signatureCount :=
  foldl_agrees p throws ops initialState none ⟨rfl, rfl⟩

/-- Claim C5: every record returned to a consumer carries the override goal
1500000: the stats response's goal field (fallback branch included), every
row the history endpoint returns, and the current snapshot served by the
current-data endpoint — for every reachable monitor state and every list of
stored rows, whatever goals storage or the upstream reported. -/
theorem goal_override_everywhere (p : Bool) (throws : ℕ → Snapshot → Bool)
    (ops : List MonitorOp) (rawRows : List HistoryRow) :
    statsResponseGoal (runM p throws ops).cachedData rawRows = GOAL_OVERRIDE
    ∧ (∀ r ∈ rawRows.map overrideRow, r.goal = GOAL_OVERRIDE)
    ∧ (∀ d, (runM p throws ops).cachedData = some d → d.goal = GOAL_OVERRIDE) := by
  have hagree := foldl_agrees p throws ops initialState none ⟨rfl, rfl⟩
  have hcache : ∀ d, (runM p throws ops).cachedData = some d →
      d.goal = GOAL_OVERRIDE := by
    intro d hd
    unfold Agrees at hagree
    cases hm : ops.foldl updFetch none with
    | none =>
      rw [hm] at hagree
      rw [runM] at hd
      rw [hagree.1] at hd
      exact absurd hd (by simp)
    | some raw =>
      rw [hm] at hagree
      rw [runM] at hd
      rw [hagree.1] at hd
      have : d = applyGoalOverride raw := by
        simpa using hd.symm
      rw [this]
      rfl
  refine ⟨?_, ?_, hcache⟩
  · unfold statsResponseGoal
    rw [List.getLast?_map]
    cases hlast : rawRows.getLast? with
    | none =>
      cases hlive : (runM p throws ops).cachedData with
      | none => rfl
      | some d =>
        have hg := hcache d hlive
        simp [hg, GOAL_OVERRIDE]
    | some r0 =>
      cases hlive : (runM p throws ops).cachedData with
      | none => simp [overrideRow]
      | some d =>
        have hg := hcache d hlive
        simp [hg, overrideRow, GOAL_OVERRIDE]
  · intro r hr
    rcases List.mem_map.mp hr with ⟨r0, _, rfl⟩
    rfl

theorem goal_override_everywhere_witness :
    statsResponseGoal
      (runM true (fun _ _ => false) [.tick (.ok ⟨some 3, some 7⟩)]).cachedData
      [⟨0, 1, 2, 3⟩] = GOAL_OVERRIDE
    ∧ (overrideRow ⟨0, 1, 2, 3⟩).goal = GOAL_OVERRIDE
    ∧ ({ signatureCount := some 3, goal := GOAL_OVERRIDE : Snapshot }).goal
        = GOAL_OVERRIDE :=
  ⟨(goal_override_everywhere true (fun _ _ => false)
      [.tick (.ok ⟨some 3, some 7⟩)] [⟨0, 1, 2, 3⟩]).1,
   (goal_override_everywhere true (fun _ _ => false)
      [.tick (.ok ⟨some 3, some 7⟩)] [⟨0, 1, 2, 3⟩]).2.1
      (overrideRow ⟨0, 1, 2, 3⟩) (by simp),
   (goal_override_everywhere true (fun _ _ => false)
      [.tick (.ok ⟨some 3, some 7⟩)] [⟨0, 1, 2, 3⟩]).2.2
      { signatureCount := some 3, goal := GOAL_OVERRIDE } (by decide)⟩

/-- Folding `min` over timestamps from a lower bound returns the bound. -/
theorem foldl_min_timestamp (ws : List HistoryRow) :
    ∀ m : ℤ, (∀ r ∈ ws, m ≤ r.timestamp) →
      ws.foldl (fun m r => min m r.timestamp) m = m := by
  induction ws with
  | nil => intro m _; rfl
  | cons r rest ih =>
    intro m hm
    simp only [List.foldl_cons]
    rw [min_eq_left (hm r (by simp))]
    exact ih m (fun r' hr' => hm r' (by simp [hr']))

/-- Claim C6 counterexample: a row stamped exactly at `now - windowMs` with a
positive delta is excluded by the code's strict filter (rate 0), while the
claim's closed-interval formula counts it (rate 5). -/
theorem sliding_window_rate_boundary_counterexample :
    calculateSlidingWindowRate [⟨0, 100, 1000000, 5⟩] 1000 1000 = 0
    ∧ specWindowRate [⟨0, 100, 1000000, 5⟩] 1000 1000 = 5
    ∧ calculateSlidingWindowRate [⟨0, 100, 1000000, 5⟩] 1000 1000
        ≠ specWindowRate [⟨0, 100, 1000000, 5⟩] 1000 1000 := by
  have h1 : calculateSlidingWindowRate [⟨0, 100, 1000000, 5⟩] 1000 1000 = 0 := by
    decide
  have h2 : specWindowRate [⟨0, 100, 1000000, 5⟩] 1000 1000 = 5 := by
    norm_num [specWindowRate, List.filter]
  refine ⟨h1, h2, ?_⟩
  rw [h1, h2]
  norm_num

/-- Claim C6, amended: over time-ordered rows none of which is stamped in
the future, the sliding-window rate equals the sum of `max 0 change_amount`
over the rows with timestamp strictly greater than `now - windowMs` (the
half-open window, a row at exactly `now - windowMs` being excluded), divided
by the lesser of `windowMs` and `now` minus the earliest qualifying
timestamp in seconds, and equals 0 when no rows qualify; negative deltas
contribute 0 to the numerator but still define the covered span. -/
theorem sliding_window_rate_matches_amended_spec
    (data : List HistoryRow) (windowMs now : ℤ)
    (hsorted : List.Pairwise (fun a b => a.timestamp ≤ b.timestamp) data)
    (hpast : ∀ r ∈ data, r.timestamp ≤ now) :
    calculateSlidingWindowRate data windowMs now
      = specWindowRateStrict data windowMs now := by
  have hfilter : data.filter (fun r => decide (now - windowMs < r.timestamp))
      = data.filter (fun r => decide (now - windowMs < r.timestamp ∧ r.timestamp ≤ now)) := by
    apply List.filter_congr
    intro r hr
    simp [hpast r hr]
  unfold calculateSlidingWindowRate specWindowRateStrict
  rw [← hfilter]
  cases hdata : data with
  | nil => simp
  | cons a as =>
    rw [← hdata]
    have hne : data.isEmpty = false := by rw [hdata]; rfl
    rw [hne]
    simp only [Bool.false_eq_true, if_false]
    cases hf : data.filter (fun r => decide (now - windowMs < r.timestamp)) with
    | nil => rfl
    | cons w ws =>
      have hpw : List.Pairwise (fun a b : HistoryRow => a.timestamp ≤ b.timestamp)
          (w :: ws) := by
        rw [← hf]
        exact List.Pairwise.filter _ hsorted
      have hmin : ws.foldl (fun m r => min m r.timestamp) w.timestamp
          = w.timestamp :=
        foldl_min_timestamp ws w.timestamp
          (fun r hr => (List.pairwise_cons.mp hpw).1 r hr)
      simp only [hmin]
      have hnn : 0 ≤ ((w :: ws).map (fun r => max 0 r.change_amount)).sum :=
        List.sum_nonneg (by
          intro x hx
          rcases List.mem_map.mp hx with ⟨r, _, rfl⟩
          exact le_max_left 0 r.change_amount)
      by_cases hpos : 0 < ((w :: ws).map (fun r => max 0 r.change_amount)).sum
      · rw [if_pos hpos]
      · rw [if_neg hpos]
        have hz : ((w :: ws).map (fun r => max 0 r.change_amount)).sum = 0 :=
          le_antisymm (not_lt.mp hpos) hnn
        rw [hz]
        simp

theorem sliding_window_rate_matches_amended_spec_witness :
    calculateSlidingWindowRate [⟨0, 100, 1500000, 5⟩] 2000 1000
      = specWindowRateStrict [⟨0, 100, 1500000, 5⟩] 2000 1000 :=
  sliding_window_rate_matches_amended_spec [⟨0, 100, 1500000, 5⟩] 2000 1000
    (by decide) (by decide)

/-- Claim C7: the stats endpoint's `currentSignatures` equals the larger of
the last persisted row's signature count (nonnegative, per the data model)
and the live snapshot's count when a live snapshot exists, and the last
row's count when none exists. -/
theorem current_signatures_resolution
    (rows : List HistoryRow) (r : HistoryRow) (c g : ℤ)
    (hlastrow : rows.getLast? = some r)
    (hdb : 0 ≤ r.signature_count) :
    statsCurrentSignatures (some ⟨some c, g⟩) rows = max c r.signature_count
    ∧ statsCurrentSignatures none rows = r.signature_count := by
  unfold statsCurrentSignatures resolveCurrentSignatures
  rw [hlastrow]
  constructor
  · simp only [max_def]
    split_ifs <;> omega
  · rfl

theorem current_signatures_resolution_witness :
    statsCurrentSignatures (some ⟨some 0, 1500000⟩) [⟨0, 10, 1500000, 2⟩]
      = max 0 10
    ∧ statsCurrentSignatures none [⟨0, 10, 1500000, 2⟩] = 10 :=
  current_signatures_resolution [⟨0, 10, 1500000, 2⟩] ⟨0, 10, 1500000, 2⟩
    0 1500000 rfl (by decide)

/-- Claim C8 counterexample: a parsed payload with no `signatureCount` on a
fresh monitor is not treated as a fetch failure — the tick notifies the
registered subscriber, hands a row to the storage insert, and changes the
module state, because `undefined === null` is false and the tick takes the
change branch. -/
theorem malformed_payload_counterexample :
    (checkForChanges true (fun _ _ => false) (.ok ⟨none, some 1000000⟩)
      ⟨none, .null, [0]⟩).notified = [0]
    ∧ (checkForChanges true (fun _ _ => false) (.ok ⟨none, some 1000000⟩)
      ⟨none, .null, [0]⟩).inserted = [⟨none, GOAL_OVERRIDE, some 0⟩]
    ∧ (checkForChanges true (fun _ _ => false) (.ok ⟨none, some 1000000⟩)
      ⟨none, .null, [0]⟩).state ≠ ⟨none, .null, [0]⟩ := by decide

/-- Claim C8, amended: a tick whose fetch or JSON parse throws is a
fetch failure — no insert, no notification, state unchanged.  A payload
that parses but lacks `signatureCount` never crashes the tick, but it is
not treated as a failure: whenever the missing field compares unequal (by
JS strict equality) to the recorded `lastSignatureCount`, the tick takes
the ordinary change path — it notifies every subscriber, attempts
persistence when storage is configured, and overwrites `cachedData` and
`lastSignatureCount` with the malformed (goal-overridden) snapshot. -/
theorem malformed_payload_amended
    (p : Bool) (throws : ℕ → Snapshot → Bool) (s : MState) (e : Unit)
    (raw : RawData) (hmal : raw.signatureCount = none)
    (hneq : jsStrictEq none s.last = false) :
    checkForChanges p throws (.error e) s
      = { state := s, inserted := [], notified := [] }
    ∧ (checkForChanges p throws (.ok raw) s).state.cachedData
        = some { signatureCount := none, goal := GOAL_OVERRIDE }
    ∧ (checkForChanges p throws (.ok raw) s).state.last = .undefined
    ∧ (checkForChanges p throws (.ok raw) s).notified = s.subs
    ∧ (checkForChanges p throws (.ok raw) s).inserted
        = (if p then
            [{ signature_count := none, goal := GOAL_OVERRIDE,
               change_amount := changeAmount s.last none : InsertRow }]
          else []) := by
  refine ⟨rfl, ?_, ?_, ?_, ?_⟩ <;>
    simp [checkForChanges, applyGoalOverride, hmal, hneq, toJVal, notify_eq,
      GOAL_OVERRIDE]

theorem malformed_payload_amended_witness :
    checkForChanges true (fun _ _ => false) (.error ()) ⟨none, .null, [0]⟩
      = { state := ⟨none, .null, [0]⟩, inserted := [], notified := [] }
    ∧ (checkForChanges true (fun _ _ => false) (.ok ⟨none, some 7⟩)
        ⟨none, .null, [0]⟩).state.cachedData
        = some { signatureCount := none, goal := GOAL_OVERRIDE }
    ∧ (checkForChanges true (fun _ _ => false) (.ok ⟨none, some 7⟩)
        ⟨none, .null, [0]⟩).state.last = .undefined
    ∧ (checkForChanges true (fun _ _ => false) (.ok ⟨none, some 7⟩)
        ⟨none, .null, [0]⟩).notified = [0]
    ∧ (checkForChanges true (fun _ _ => false) (.ok ⟨none, some 7⟩)
        ⟨none, .null, [0]⟩).inserted
        = (if true then
            [{ signature_count := none, goal := GOAL_OVERRIDE,
               change_amount := changeAmount JVal.null none : InsertRow }]
          else []) :=
  malformed_payload_amended true (fun _ _ => false) ⟨none, .null, [0]⟩ ()
    ⟨none, some 7⟩ rfl rfl

/-- Timer-count invariant of the poll scheduler: the number of live interval
timers is 1 while running and 0 otherwise. -/
theorem runSched_timers (ops : List SchedOp) :
    (runSched ops).timers = (if (runSched ops).running then 1 else 0) := by
  suffices h : ∀ (ops : List SchedOp) (s : SchedState),
      s.timers = (if s.running then 1 else 0) →
      (ops.foldl (fun s op =>
        match op with
        | .start => startMonitoring s
        | .stop => stopMonitoring s) s).timers
        = (if (ops.foldl (fun s op =>
            match op with
            | .start => startMonitoring s
            | .stop => stopMonitoring s) s).running then 1 else 0) by
    exact h ops { running := false, timers := 0, polls := 0 } rfl
  intro ops
  induction ops with
  | nil => intro s hs; exact hs
  | cons op rest ih =>
    intro s hs
    apply ih
    cases op with
    | start =>
      unfold startMonitoring
      by_cases hr : s.running
      · simp [hr, hs]
      · simp [hr, hs]
    | stop =>
      unfold stopMonitoring
      by_cases hr : s.running
      · simp [hr, hs]
      · simp [hr, hs]

/-- Claim C9: after any sequence of start/stop calls at most one interval
timer exists; a further `startMonitoring` while running is a no-op; a start
while stopped performs one immediate poll and installs the single timer;
`stopMonitoring` while stopped is a no-op; and one stop always leaves zero
timers. -/
theorem monitoring_lifecycle (ops : List SchedOp) :
    (runSched ops).timers ≤ 1
    ∧ ((runSched ops).running = true →
        startMonitoring (runSched ops) = runSched ops)
    ∧ ((runSched ops).running = false →
        (startMonitoring (runSched ops)).running = true
        ∧ (startMonitoring (runSched ops)).timers = 1
        ∧ (startMonitoring (runSched ops)).polls = (runSched ops).polls + 1)
    ∧ ((runSched ops).running = false → stopMonitoring (runSched ops) = runSched ops)
    ∧ (stopMonitoring (runSched ops)).timers = 0 := by
  have hinv := runSched_timers ops
  refine ⟨?_, ?_, ?_, ?_, ?_⟩
  · rw [hinv]; split <;> omega
  · intro hr; simp [startMonitoring, hr]
  · intro hr
    simp only [hr, Bool.false_eq_true, if_false] at hinv
    refine ⟨?_, ?_, ?_⟩ <;> simp [startMonitoring, hr, hinv]
  · intro hr; simp [stopMonitoring, hr]
  · by_cases hr : (runSched ops).running
    · rw [hr] at hinv
      simp [stopMonitoring, hr, hinv]
    · simp only [Bool.not_eq_true] at hr
      simp only [hr, Bool.false_eq_true, if_false] at hinv
      simp [stopMonitoring, hr, hinv]

theorem monitoring_lifecycle_witness :
    (runSched [SchedOp.start, SchedOp.start]).timers ≤ 1
    ∧ startMonitoring (runSched [SchedOp.start, SchedOp.start])
        = runSched [SchedOp.start, SchedOp.start]
    ∧ (stopMonitoring (runSched [SchedOp.start, SchedOp.start])).timers = 0 :=
  ⟨(monitoring_lifecycle [SchedOp.start, SchedOp.start]).1,
   (monitoring_lifecycle [SchedOp.start, SchedOp.start]).2.1 (by decide),
   (monitoring_lifecycle [SchedOp.start, SchedOp.start]).2.2.2.2⟩

/-- Claim C10: the unsubscribe closure returned by `subscribe` is
idempotent — after the first invocation the callback is gone from the
subscriber set and invoking it again leaves the set unchanged. -/
theorem unsubscribe_idempotent (subs : List ℕ) (i : ℕ) (h : subs.Nodup) :
    i ∉ unsubscribeOp i subs
    ∧ unsubscribeOp i (unsubscribeOp i subs) = unsubscribeOp i subs := by
  have hnm : i ∉ subs.erase i := h.not_mem_erase
  exact ⟨hnm, List.erase_of_not_mem hnm⟩

theorem unsubscribe_idempotent_witness :
    1 ∉ unsubscribeOp 1 [0, 1, 2]
    ∧ unsubscribeOp 1 (unsubscribeOp 1 [0, 1, 2]) = unsubscribeOp 1 [0, 1, 2] :=
  unsubscribe_idempotent [0, 1, 2] 1 (by decide)

end Petition
